import Mathlib

/-!
Shallow embedding of the Chuck-A-Luck wheel program (display device
`game.py`, remote LED indicator `main.py`) and proofs about its spin
angle solver, result classifier, statistics, message protocol and the
indicator state machine.

Real-valued quantities that the source computes with floating point are
modelled exactly: angle arithmetic over `ℚ` (every constant involved is
rational), transcendental animation curves (`sin`, `exp`) over `ℝ`.
Python's `%` on numbers is floor-based modulus (result takes the sign of
the divisor); `int(x)` on a non-negative value is `⌊x⌋`.
-/

namespace ChuckALuck

/-! ### Configuration constants (game.py) -/

def NUM_PEGS : ℕ := 54
def MIN_SPINS : ℕ := 4
def MAX_SPINS : ℕ := 8

def WIND_UP_ANGLE_DEG : ℚ := 100
noncomputable def SETTLE_WOBBLE_DEG : ℝ := 9/5
noncomputable def SETTLE_WOBBLE_START : ℝ := 3/4

/-- `360 / NUM_PEGS`, the angular width of one segment (`self.seg_angle`). -/
def seg_angle : ℚ := 360 / (NUM_PEGS : ℚ)

/-! ### Wheel data (game.py `WHEEL_RESULTS`) -/

/-- The 54 dice triples on the wheel, in segment order.
`(0,0,0)` = House Wins, `(9,9,9)` = Spin Again. -/
def WHEEL_RESULTS : List (ℕ × ℕ × ℕ) :=
  [(4, 5, 6), (1, 2, 4), (5, 5, 5), (3, 6, 6), (5, 5, 6), (4, 4, 4),
   (1, 2, 3), (3, 3, 4), (1, 4, 5), (6, 6, 6), (1, 1, 4), (1, 2, 6),
   (9, 9, 9), (1, 2, 4), (5, 5, 5), (3, 6, 6), (1, 3, 4), (2, 5, 6),
   (1, 4, 6), (0, 0, 0), (1, 2, 3), (3, 3, 4), (2, 3, 4), (1, 4, 5),
   (1, 1, 2), (3, 3, 3), (9, 9, 9), (4, 5, 6), (1, 2, 2), (2, 4, 5),
   (2, 3, 6), (5, 5, 6), (1, 4, 6), (3, 3, 4), (2, 2, 2), (2, 3, 6),
   (1, 1, 2), (3, 4, 6), (4, 5, 6), (9, 9, 9), (1, 2, 2), (5, 5, 5),
   (3, 6, 6), (1, 1, 1), (5, 5, 6), (1, 4, 6), (0, 0, 0), (1, 2, 3),
   (3, 3, 4), (2, 2, 2), (4, 4, 5), (2, 3, 6), (1, 3, 5), (9, 9, 9)]

/-! ### Python modulus and the angle solver -/

/-- Python's `%` on exact rationals: `a % b = a - b * ⌊a / b⌋`
(for `b > 0` the result lies in `[0, b)`). -/
def pymod (a b : ℚ) : ℚ := a - b * ⌊a / b⌋

/-- `Game._pick_target` (game.py lines 1053-1067): given the sampled target
segment `k`, the current `rest_angle` and the sampled number of full
`spins`, compute `self.final_angle_base`. -/
def pick_target_final (k : ℕ) (rest_angle : ℚ) (spins : ℕ) : ℚ :=
  let target_segment_angle : ℚ := ((k : ℚ) + 1/2) * seg_angle
  let final_destination : ℚ := target_segment_angle - 90
  let start_angle : ℚ := rest_angle - WIND_UP_ANGLE_DEG
  let total_rotation : ℚ :=
    (spins : ℚ) * 360 + pymod (final_destination - pymod start_angle 360 + 360) 360
  start_angle + total_rotation

/-- The inverse read-back used at spin settle (`Game._update_spin`,
game.py lines 1167-1175): the index of the segment the code reports as
being under the 90° pointer when the wheel rests at `final`. -/
def landed_index (final : ℚ) : ℤ :=
  let normalized : ℚ := pymod final 360
  let under_pointer : ℚ := pymod (90 - normalized + 360) 360
  ⌊under_pointer / seg_angle⌋

/-! ### Easing functions (game.py lines 196-218) -/

/-- `ease_out_cubic(x) = 1 - (1 - x)^3` (game.py line 198). -/
def ease_out_cubic (x : ℚ) : ℚ := 1 - (1 - x) ^ 3

/-- `ease_in_out_quad` (game.py line 202). -/
def ease_in_out_quad (x : ℚ) : ℚ :=
  if x < 1/2 then 2 * x * x else 1 - (-2 * x + 2) ^ 2 / 2

/-- `end_wobble` generalized over the amplitude and wobble-start constants
(the source reads the module constants `SETTLE_WOBBLE_DEG` and
`SETTLE_WOBBLE_START`; the guard `SETTLE_WOBBLE_DEG <= 0` makes the
amplitude a genuine input of the algorithm). -/
noncomputable def end_wobble_amp (amp wobble_start u : ℝ) : ℝ :=
  if amp ≤ 0 ∨ u < wobble_start then 0
  else
    let t : ℝ := (u - wobble_start) / (1 - wobble_start)
    amp * Real.sin (Real.pi * t) * Real.exp (-3 * t)

/-- `end_wobble` (game.py lines 213-218) at the configured constants. -/
noncomputable def end_wobble (u : ℝ) : ℝ :=
  end_wobble_amp SETTLE_WOBBLE_DEG SETTLE_WOBBLE_START u

/-! ### Statistics and the result classifier (game.py `_process_spin_result`) -/

/-- The statistics fields of `Game` touched by `_process_spin_result`
(game.py lines 655-660 initialise them). -/
structure Stats where
  total_spins : ℕ
  singles : ℕ
  doubles : ℕ
  triples : ℕ
  house_wins : ℕ
  spin_again : ℕ
  dice_counts : ℕ → ℕ
  total_dice : ℕ

/-- The all-zero statistics created in `Game.__init__`. -/
def initStats : Stats :=
  { total_spins := 0, singles := 0, doubles := 0, triples := 0,
    house_wins := 0, spin_again := 0, dice_counts := fun _ => 0,
    total_dice := 0 }

/-- One iteration of the dice-count loop in `_process_spin_result`
(game.py lines 1081-1082): `if 1 <= d <= 6: self.spin_counts_full[d] += 1;
self.total_dice_rolled_full += 1`. -/
def add_die (acc : Stats) (d : ℕ) : Stats :=
  if 1 ≤ d ∧ d ≤ 6 then
    { acc with
      dice_counts := fun n =>
        if n = d then acc.dice_counts n + 1 else acc.dice_counts n,
      total_dice := acc.total_dice + 1 }
  else acc

/-- `Game._process_spin_result` (game.py lines 1069-1083): updates the
statistics for a landed triple and returns the display string.
`len(set(winning_result))` is the number of distinct values, i.e. the
length of the deduplicated list. -/
def process_spin_result (w : ℕ × ℕ × ℕ) (s : Stats) : Stats × String :=
  let s1 := { s with total_spins := s.total_spins + 1 }
  let uniq := [w.1, w.2.1, w.2.2].dedup.length
  let s2 :=
    if uniq = 1 ∧ w ≠ (0, 0, 0) ∧ w ≠ (9, 9, 9) then
      { s1 with triples := s1.triples + 1 }
    else if uniq = 2 then { s1 with doubles := s1.doubles + 1 }
    else { s1 with singles := s1.singles + 1 }
  if w = (0, 0, 0) then
    ({ s2 with house_wins := s2.house_wins + 1 }, "House Wins")
  else if w = (9, 9, 9) then
    ({ s2 with spin_again := s2.spin_again + 1 }, "Spin Again")
  else
    let s3 := [w.1, w.2.1, w.2.2].foldl add_die s2
    (s3, toString w.1 ++ " - " ++ toString w.2.1 ++ " - " ++ toString w.2.2)

/-- The spec's semantic outcome categories (§4.5). -/
inductive StatCat where
  | houseWin
  | spinAgain
  | triple
  | double
  | single
deriving DecidableEq

/-- The spec's §4.5 classification rule, stated from the spec's words
(sentinels bypass the equality rules; all-equal → Triple, exactly two
equal → Double, all distinct → Single), for comparison with
`process_spin_result`. -/
def classifySpec (w : ℕ × ℕ × ℕ) : StatCat :=
  if w = (0, 0, 0) then .houseWin
  else if w = (9, 9, 9) then .spinAgain
  else if w.1 = w.2.1 ∧ w.2.1 = w.2.2 then .triple
  else if w.1 = w.2.1 ∨ w.2.1 = w.2.2 ∨ w.1 = w.2.2 then .double
  else .single

/-- The spec's §4.5 colorClass mapping, as the concrete `wheel/state`
message strings: HouseWin → red, SpinAgain → green, everything else →
white. -/
def colorOf : StatCat → String
  | .houseWin => "flash_red"
  | .spinAgain => "flash_green"
  | _ => "flash_white"

/-! ### Game animation state machine (game.py `Game`) -/

/-- `self.animation_state` (game.py line 634): one of `"idle"`,
`"winding_up"`, `"spinning"`. -/
inductive AnimState where
  | idle
  | winding_up
  | spinning
deriving DecidableEq

/-- `self.current_screen` (game.py line 642): `"game"` or `"stats"`. -/
inductive Screen where
  | game
  | stats
deriving DecidableEq

/-- The fields of `Game` driving the spin state machine, the result
handling and the history (game.py lines 633-660).  `current_angle` is
real-valued because the settle wobble is transcendental. -/
structure GameState where
  animation_state : AnimState
  animation_progress : ℚ
  current_angle : ℝ
  rest_angle : ℚ
  final_angle_base : ℚ
  current_spin_duration : ℚ
  current_screen : Screen
  last_tick_idx : Option ℤ
  result_display_text : String
  test_mode : Bool
  winning_segment_index : Option ℕ
  stats : Stats
  results_history_full : List String

/-- The triple the settle read-back reports for a resting angle:
`WHEEL_RESULTS[idx]` with `idx = landed_index final`. -/
def landed_triple (final : ℚ) : ℕ × ℕ × ℕ :=
  WHEEL_RESULTS.getD (landed_index final).toNat (0, 0, 0)

/-- The two history lines at the end of `Game._update_spin`
(game.py lines 1180-1182): `insert(0, txt)` then re-truncate to 45. -/
def settle_history_update (txt : String) (h : List String) : List String :=
  let h1 := txt :: h
  if 45 < h1.length then h1.take 45 else h1

/-- `Game._pick_target` as a state update (game.py lines 1053-1067); the
random draws `k = random.randrange(NUM_PEGS)` and
`spins = random.randint(MIN_SPINS, MAX_SPINS)` are inputs. -/
def pick_target (g : GameState) (k spins : ℕ) : GameState :=
  { g with result_display_text := "",
           final_angle_base := pick_target_final k g.rest_angle spins,
           last_tick_idx := none }

/-- `Game._start_spin` (game.py lines 1144-1152): enter `winding_up`,
sample the duration, pick the target and publish `"spinning"`.  The
second component collects the `wheel/state` messages published. -/
def start_spin (g : GameState) (k spins : ℕ) (dur : ℚ) :
    GameState × List String :=
  let g1 := { g with winning_segment_index := none,
                     animation_state := .winding_up,
                     animation_progress := 0,
                     current_spin_duration := dur }
  (pick_target g1 k spins, ["spinning"])

/-- The SPACE-key branch of `Game._handle_events` (game.py lines
856-860): starts a spin only on the game screen, when not animating and
not in test mode. -/
def handle_space (g : GameState) (k spins : ℕ) (dur : ℚ) :
    GameState × List String :=
  if g.current_screen = .game then
    if g.animation_state = .idle ∧ g.test_mode = false then
      start_spin g k spins dur
    else (g, [])
  else (g, [])

/-- `Game._on_mqtt_message` for `wheel/spin` payload `"pressed"`
(game.py lines 1132-1136): starts a spin only when idle and not in test
mode. -/
def on_mqtt_pressed (g : GameState) (k spins : ℕ) (dur : ℚ) :
    GameState × List String :=
  if g.animation_state = .idle ∧ g.test_mode = false then
    start_spin g k spins dur
  else (g, [])

/-- `Game._update_spin` (game.py lines 1154-1191): advance the main spin
by `dt`; on completion settle, read back the winner, update statistics
and history, and publish the outcome-dependent flash message. -/
noncomputable def update_spin (dt : ℚ) (g : GameState) :
    GameState × List String :=
  let progress := g.animation_progress + dt / g.current_spin_duration
  let u := min 1 progress
  let eased_u := ease_out_cubic u
  let wobble := end_wobble (u : ℝ)
  let spin_start := g.rest_angle - WIND_UP_ANGLE_DEG
  let base_angle := spin_start + (g.final_angle_base - spin_start) * eased_u
  let ca : ℝ := (base_angle : ℝ) + wobble
  if 1 ≤ u then
    let idx := landed_index g.final_angle_base
    let winning_result := landed_triple g.final_angle_base
    let pr := process_spin_result winning_result g.stats
    ({ g with animation_progress := progress,
              current_angle := ca,
              animation_state := .idle,
              rest_angle := g.final_angle_base,
              winning_segment_index := some idx.toNat,
              result_display_text := pr.2,
              stats := pr.1,
              results_history_full :=
                settle_history_update pr.2 g.results_history_full },
     [if winning_result = (0, 0, 0) then "flash_red"
      else if winning_result = (9, 9, 9) then "flash_green"
      else "flash_white"])
  else
    ({ g with animation_progress := progress, current_angle := ca }, [])

/-! ### History operations (C10) -/

/-- `Game._run_silent_simulation` (game.py lines 1085-1094): process a
list of drawn wheel results (one per simulated spin, each inserted at
index 0), then truncate the history once. -/
def run_silent_simulation (ws : List (ℕ × ℕ × ℕ))
    (st : Stats × List String) : Stats × List String :=
  let st1 := ws.foldl
    (fun acc w =>
      let pr := process_spin_result w acc.1
      (pr.1, pr.2 :: acc.2)) st
  (st1.1, if 45 < st1.2.length then st1.2.take 45 else st1.2)

/-- The two operations that append to the spin-results history. -/
inductive HistOp where
  | settle (w : ℕ × ℕ × ℕ)
  | simulate (ws : List (ℕ × ℕ × ℕ))

/-- The effect of one history-touching operation on the statistics and
the history list (the settle case is the tail of `_update_spin`, the
simulate case is `_run_silent_simulation`). -/
def apply_hist_op : HistOp → Stats × List String → Stats × List String
  | .settle w, st =>
      let pr := process_spin_result w st.1
      (pr.1, settle_history_update pr.2 st.2)
  | .simulate ws, st => run_silent_simulation ws st

/-- Any sequence of settles and silent simulations, starting from the
empty history created in `Game.__init__`. -/
def run_hist_ops (ops : List HistOp) (st : Stats × List String) :
    Stats × List String :=
  ops.foldl (fun acc op => apply_hist_op op acc) st

/-! ### Indicator device configuration (main.py lines 27-67) -/

def IDLE_BREATHING_EFFECT : Bool := true
def IDLE_BREATHE_SPEED_MS : ℕ := 20
def IDLE_BREATHE_MIN_BRIGHTNESS : ℕ := 30
def IDLE_BREATHE_MAX_BRIGHTNESS : ℕ := 200
def SPIN_ANIMATION_MODE : String := "cycling_color"
def CHASING_RAINBOW_SPEED_MS : ℕ := 1
def CYCLING_COLOR_SPEED_MS : ℕ := 5
def FLASH_COUNT_WHITE : ℕ := 13
def FLASH_COUNT_RED : ℕ := 13
def FLASH_COUNT_GREEN : ℕ := 13
def FLASH_FADE_DURATION_MS : ℕ := 300
def POST_FLASH_DELAY_MS : ℕ := 2000
def FADE_TO_GREEN_DURATION_MS : ℕ := 2000
def IDLE_COLOR : ℤ × ℤ × ℤ := (0, 50, 0)
def NUM_LEDS : ℕ := 24

/-! ### Indicator device state (main.py globals, lines 70-90) -/

/-- The module-level mutable state of the indicator script: the master
state string, the animation counters and timers, and the LED ring
contents (one RGB triple per LED, written by `set_pixels` or per-pixel
by the chasing animation). -/
structure IndState where
  current_state : String
  rainbow_step : ℕ
  flash_color_target : ℤ × ℤ × ℤ
  flash_target_count : ℕ
  flash_count_completed : ℕ
  flash_is_fading_in : Bool
  flash_anim_start_time : ℕ
  post_flash_delay_start_time : ℕ
  fade_to_green_start_time : ℕ
  last_anim_update : ℕ
  pixels : Fin 24 → ℤ × ℤ × ℤ

/-- Python's `str.startswith(prefix)`, at the character level (the byte
level `String.startsWith` does not reduce in the kernel). -/
def starts_with (p s : String) : Bool := p.data.isPrefixOf s.data

/-- `int(channel * brightness)` for a non-negative brightness. -/
def scale_channel (c : ℤ) (b : ℚ) : ℤ := ⌊(c : ℚ) * b⌋

/-- The RGB scaling in `handle_fading_flash_leds` / `handle_fade_to_green`
(main.py lines 172-174 and 217-219). -/
def scale_color (c : ℤ × ℤ × ℤ) (b : ℚ) : ℤ × ℤ × ℤ :=
  (scale_channel c.1 b, scale_channel c.2.1 b, scale_channel c.2.2 b)

/-- `wheel(pos)` (main.py lines 99-110): a 256-step rainbow color. -/
def wheel_color (pos : ℕ) : ℤ × ℤ × ℤ :=
  if pos < 85 then ((pos : ℤ) * 3, 255 - (pos : ℤ) * 3, 0)
  else if pos < 170 then
    let p : ℤ := (pos : ℤ) - 85
    (255 - p * 3, 0, p * 3)
  else
    let p : ℤ := (pos : ℤ) - 170
    (0, p * 3, 255 - p * 3)

/-- `handle_idle_leds` (main.py lines 117-120). -/
def handle_idle_leds (s : IndState) : IndState :=
  if s.pixels 0 ≠ IDLE_COLOR then { s with pixels := fun _ => IDLE_COLOR }
  else s

/-- `handle_breathing_idle_leds` (main.py lines 122-134): sine-modulated
green brightness, advancing `rainbow_step` on a fixed cadence. -/
noncomputable def handle_breathing_idle_leds (now : ℕ) (s : IndState) :
    IndState :=
  if IDLE_BREATHE_SPEED_MS < now - s.last_anim_update then
    let brightness_normalized : ℝ :=
      (Real.sin ((s.rainbow_step : ℝ) * (Real.pi / 128)) + 1) / 2
    let brightness : ℤ :=
      ⌊(IDLE_BREATHE_MIN_BRIGHTNESS : ℝ) + brightness_normalized *
        ((IDLE_BREATHE_MAX_BRIGHTNESS : ℝ) - (IDLE_BREATHE_MIN_BRIGHTNESS : ℝ))⌋
    { s with pixels := fun _ => (0, brightness, 0),
             rainbow_step := (s.rainbow_step + 1) % 256,
             last_anim_update := now }
  else s

/-- `handle_chasing_rainbow_leds` (main.py lines 136-147). -/
def handle_chasing_rainbow_leds (now : ℕ) (s : IndState) : IndState :=
  if CHASING_RAINBOW_SPEED_MS < now - s.last_anim_update then
    { s with pixels := fun i =>
               wheel_color (((i : ℕ) * 256 / NUM_LEDS + s.rainbow_step) &&& 255),
             rainbow_step := (s.rainbow_step + 1) % 256,
             last_anim_update := now }
  else s

/-- `handle_cycling_color_leds` (main.py lines 149-157). -/
def handle_cycling_color_leds (now : ℕ) (s : IndState) : IndState :=
  if CYCLING_COLOR_SPEED_MS < now - s.last_anim_update then
    { s with pixels := fun _ => wheel_color (s.rainbow_step &&& 255),
             rainbow_step := (s.rainbow_step + 1) % 256,
             last_anim_update := now }
  else s

/-- `handle_fading_flash_leds` (main.py lines 159-193): one tick of the
fade-in / fade-out flashing; on the final fade-out of the last cycle it
turns the LEDs off and transitions to `post_flash_delay`. -/
def handle_fading_flash_leds (now : ℕ) (s : IndState) : IndState :=
  let elapsed := now - s.flash_anim_start_time
  let progress : ℚ := min ((elapsed : ℚ) / (FLASH_FADE_DURATION_MS : ℚ)) 1
  let brightness : ℚ := if s.flash_is_fading_in then progress else 1 - progress
  let s1 := { s with pixels := fun _ => scale_color s.flash_color_target brightness }
  if 1 ≤ progress then
    let s2 := { s1 with flash_anim_start_time := now }
    if s.flash_is_fading_in then { s2 with flash_is_fading_in := false }
    else
      let completed := s.flash_count_completed + 1
      let s3 := { s2 with flash_is_fading_in := true,
                          flash_count_completed := completed }
      if s.flash_target_count ≤ completed then
        { s3 with pixels := fun _ => (0, 0, 0),
                  current_state := "post_flash_delay",
                  post_flash_delay_start_time := now }
      else s3
  else s1

/-- `handle_post_flash_delay` (main.py lines 195-206). -/
def handle_post_flash_delay (now : ℕ) (s : IndState) : IndState :=
  let elapsed := now - s.post_flash_delay_start_time
  if POST_FLASH_DELAY_MS ≤ elapsed then
    { s with current_state := "fade_to_green", fade_to_green_start_time := now }
  else s

/-- `handle_fade_to_green` (main.py lines 208-225). -/
def handle_fade_to_green (now : ℕ) (s : IndState) : IndState :=
  let elapsed := now - s.fade_to_green_start_time
  let progress : ℚ := min ((elapsed : ℚ) / (FADE_TO_GREEN_DURATION_MS : ℚ)) 1
  let s1 := { s with pixels := fun _ => scale_color IDLE_COLOR progress }
  if 1 ≤ progress then { s1 with current_state := "idle" } else s1

/-- `mqtt_callback` (main.py lines 240-267): a message differing from
the current state pre-empts it; a flash command initialises the flash
variables; duplicates are ignored. -/
def mqtt_callback (msg : String) (now : ℕ) (s : IndState) : IndState :=
  if msg ≠ s.current_state then
    let s1 := { s with current_state := msg, rainbow_step := 0 }
    if starts_with "flash_" msg then
      let s2 := { s1 with flash_count_completed := 0,
                          flash_is_fading_in := true,
                          flash_anim_start_time := now }
      if msg = "flash_red" then
        { s2 with flash_color_target := (255, 0, 0),
                  flash_target_count := FLASH_COUNT_RED }
      else if msg = "flash_green" then
        { s2 with flash_color_target := (0, 255, 0),
                  flash_target_count := FLASH_COUNT_GREEN }
      else
        { s2 with flash_color_target := (255, 255, 255),
                  flash_target_count := FLASH_COUNT_WHITE }
    else s1
  else s

/-- One pass of the LED dispatch block of the main loop (main.py lines
326-343), at time `now`. -/
noncomputable def tick_ind (now : ℕ) (s : IndState) : IndState :=
  if s.current_state = "spinning" then
    if SPIN_ANIMATION_MODE = "chasing_rainbow" then
      handle_chasing_rainbow_leds now s
    else if SPIN_ANIMATION_MODE = "cycling_color" then
      handle_cycling_color_leds now s
    else s
  else if starts_with "flash_" s.current_state then
    handle_fading_flash_leds now s
  else if s.current_state = "post_flash_delay" then
    handle_post_flash_delay now s
  else if s.current_state = "fade_to_green" then
    handle_fade_to_green now s
  else
    if IDLE_BREATHING_EFFECT then handle_breathing_idle_leds now s
    else handle_idle_leds s

/-- Run the dispatch once per entry of a list of tick times. -/
noncomputable def run_ticks (ts : List ℕ) (s : IndState) : IndState :=
  ts.foldl (fun st t => tick_ind t st) s

/-- The canonical simulated clock for the flash phase: tick `j + 1`
happens at `t0 + FLASH_FADE_DURATION_MS * (j + 1)`, exactly when the
running half-fade completes. -/
def flash_times (t0 n : ℕ) : List ℕ :=
  (List.range n).map (fun j => t0 + FLASH_FADE_DURATION_MS * (j + 1))

/-! ### Concrete states used to instantiate the theorems -/

/-- A spinning game state used to instantiate the settle and trigger
theorems. -/
noncomputable def spinningState : GameState :=
  { animation_state := .spinning, animation_progress := 1,
    current_angle := 0, rest_angle := 0, final_angle_base := 4060/3,
    current_spin_duration := 1, current_screen := .game,
    last_tick_idx := none, result_display_text := "", test_mode := false,
    winning_segment_index := none, stats := initStats,
    results_history_full := [] }

/-- An indicator mid-way through a red flash sequence. -/
def indFlashRed : IndState :=
  { current_state := "flash_red", rainbow_step := 5,
    flash_color_target := (255, 0, 0), flash_target_count := 13,
    flash_count_completed := 2, flash_is_fading_in := false,
    flash_anim_start_time := 100, post_flash_delay_start_time := 0,
    fade_to_green_start_time := 0, last_anim_update := 0,
    pixels := fun _ => (0, 0, 0) }

/-- An idle indicator as at boot. -/
def indIdle : IndState :=
  { current_state := "idle", rainbow_step := 0,
    flash_color_target := (0, 0, 0), flash_target_count := 0,
    flash_count_completed := 0, flash_is_fading_in := true,
    flash_anim_start_time := 0, post_flash_delay_start_time := 0,
    fade_to_green_start_time := 0, last_anim_update := 0,
    pixels := fun _ => IDLE_COLOR }

/-- An indicator that has just received `"flash_red"` at time 0 (the
state `mqtt_callback` produces). -/
def indFlashStart : IndState :=
  { current_state := "flash_red", rainbow_step := 0,
    flash_color_target := (255, 0, 0), flash_target_count := 13,
    flash_count_completed := 0, flash_is_fading_in := true,
    flash_anim_start_time := 0, post_flash_delay_start_time := 0,
    fade_to_green_start_time := 0, last_anim_update := 0,
    pixels := fun _ => (0, 0, 0) }

/-- The same flash entry state but with a zero flash target count. -/
def indFlashZero : IndState :=
  { indFlashStart with flash_target_count := 0 }

/-- An indicator carrying an unrecognized state string. -/
def indBogus : IndState :=
  { indIdle with current_state := "bogus" }

/-! ### Theorems: angle solver (C1) -/

/-- C1: the claim states that composing the forward solver with the
inverse read-back returns the originally sampled target index for every
target, rest angle and spin count.  This is false: at target index 0,
rest angle 0 and 4 spins the settle read-back reports segment 26, not 0
(in general the code lands on `(26 - k) mod 54`).  The forward formula
places the target's center at `(k+0.5)·segW - 90` while the inverse
reads the segment at `90 - angle`, so the two disagree except at the two
fixed points `k = 13` and `k = 40`. -/
theorem C1_failing_input_eval :
    landed_index (pick_target_final 0 0 4) = 26 := by
  norm_num [landed_index, pick_target_final, pymod, seg_angle, NUM_PEGS,
    WIND_UP_ANGLE_DEG]

/-! ### Theorems: easing functions (C8, C9) -/

/-- C8: `ease_out_cubic x = 1 - (1-x)^3`, with `ease_out_cubic 0 = 0`,
`ease_out_cubic 1 = 1`, and monotone non-decreasing on `[0, 1]`. -/
theorem C8_ease_out_cubic_spec :
    (∀ x : ℚ, ease_out_cubic x = 1 - (1 - x) ^ 3) ∧
    ease_out_cubic 0 = 0 ∧ ease_out_cubic 1 = 1 ∧
    (∀ x y : ℚ, 0 ≤ x → x ≤ y → y ≤ 1 →
      ease_out_cubic x ≤ ease_out_cubic y) := by
  refine ⟨fun x => rfl, by norm_num [ease_out_cubic],
    by norm_num [ease_out_cubic], fun x y hx hxy hy => ?_⟩
  unfold ease_out_cubic
  nlinarith [sq_nonneg ((1 - x) + (1 - y)), sq_nonneg ((1 - x) - (1 - y)),
    sq_nonneg (1 - x), sq_nonneg (1 - y)]

/-- C8 witness: the monotonicity part applied at the endpoints 0 and 1. -/
theorem C8_ease_out_cubic_spec_witness :
    ease_out_cubic 0 ≤ ease_out_cubic 1 :=
  C8_ease_out_cubic_spec.2.2.2 0 1 le_rfl zero_le_one le_rfl

/-- C9: the settle wobble is 0 before the wobble start (0.75) and
whenever the amplitude is ≤ 0; from the wobble start on it equals
`amp · sin(π t) · exp(-3 t)` with `t = (u - start)/(1 - start)`; and at
`u = 1` it is exactly 0 (the wobble has decayed away). -/
theorem C9_end_wobble_spec :
    (∀ u : ℝ, u < SETTLE_WOBBLE_START → end_wobble u = 0) ∧
    (∀ amp ws u : ℝ, amp ≤ 0 → end_wobble_amp amp ws u = 0) ∧
    (∀ u : ℝ, SETTLE_WOBBLE_START ≤ u →
      end_wobble u =
        SETTLE_WOBBLE_DEG *
          Real.sin (Real.pi *
            ((u - SETTLE_WOBBLE_START) / (1 - SETTLE_WOBBLE_START))) *
          Real.exp (-3 *
            ((u - SETTLE_WOBBLE_START) / (1 - SETTLE_WOBBLE_START)))) ∧
    end_wobble 1 = 0 := by
  have hamp : ¬ (SETTLE_WOBBLE_DEG : ℝ) ≤ 0 := by
    norm_num [SETTLE_WOBBLE_DEG]
  have hformula : ∀ u : ℝ, SETTLE_WOBBLE_START ≤ u →
      end_wobble u =
        SETTLE_WOBBLE_DEG *
          Real.sin (Real.pi *
            ((u - SETTLE_WOBBLE_START) / (1 - SETTLE_WOBBLE_START))) *
          Real.exp (-3 *
            ((u - SETTLE_WOBBLE_START) / (1 - SETTLE_WOBBLE_START))) := by
    intro u hu
    unfold end_wobble end_wobble_amp
    rw [if_neg]
    push_neg
    exact ⟨lt_of_not_le hamp, hu⟩
  refine ⟨fun u hu => ?_, fun amp ws u h => ?_, hformula, ?_⟩
  · unfold end_wobble end_wobble_amp
    exact if_pos (Or.inr hu)
  · unfold end_wobble_amp
    exact if_pos (Or.inl h)
  · have h34 : (SETTLE_WOBBLE_START : ℝ) ≤ 1 := by
      norm_num [SETTLE_WOBBLE_START]
    rw [hformula 1 h34]
    have ht : (1 - SETTLE_WOBBLE_START) / (1 - SETTLE_WOBBLE_START) = (1 : ℝ) := by
      rw [div_self]
      norm_num [SETTLE_WOBBLE_START]
    rw [ht, mul_one, Real.sin_pi, mul_zero, zero_mul]

/-- C9 witness: the wobble vanishes at `u = 1/2 < 0.75`, for a negative
amplitude, and at `u = 1`; and the formula holds at `u = 3/4`. -/
theorem C9_end_wobble_spec_witness :
    end_wobble (1/2) = 0 ∧ end_wobble_amp (-1) (3/4) (7/8) = 0 ∧
      end_wobble 1 = 0 :=
  ⟨C9_end_wobble_spec.1 (1/2) (by norm_num [SETTLE_WOBBLE_START]),
   C9_end_wobble_spec.2.1 (-1) (3/4) (7/8) (by norm_num),
   C9_end_wobble_spec.2.2.2⟩

/-! ### Theorems: result classifier (C2) -/

/-- The number of distinct values among three, by cases. -/
lemma dedup_three_length (a b c : ℕ) :
    [a, b, c].dedup.length =
      if a = b ∧ b = c then 1 else if a = b ∨ b = c ∨ a = c then 2 else 3 := by
  by_cases hbc : b = c <;> by_cases hab : a = b <;> by_cases hac : a = c <;>
    simp_all [List.dedup_cons_of_mem, List.dedup_cons_of_not_mem]

/-- The dice-count loop touches only the per-face counts. -/
lemma add_die_singles (s : Stats) (d : ℕ) :
    (add_die s d).singles = s.singles := by
  unfold add_die; split <;> rfl

lemma add_die_doubles (s : Stats) (d : ℕ) :
    (add_die s d).doubles = s.doubles := by
  unfold add_die; split <;> rfl

lemma add_die_triples (s : Stats) (d : ℕ) :
    (add_die s d).triples = s.triples := by
  unfold add_die; split <;> rfl

lemma add_die_house_wins (s : Stats) (d : ℕ) :
    (add_die s d).house_wins = s.house_wins := by
  unfold add_die; split <;> rfl

lemma add_die_spin_again (s : Stats) (d : ℕ) :
    (add_die s d).spin_again = s.spin_again := by
  unfold add_die; split <;> rfl

/-- C2 counterexample: the claim says the sentinel triples are never
counted as Triple, Double or Single, but processing `(0,0,0)` increments
both the House-Wins counter and the Singles combo counter (the combo
branch's `else` catches the sentinels). -/
theorem C2_sentinel_counted_single :
    ((process_spin_result (0, 0, 0) initStats).1.singles = 1) ∧
    ((process_spin_result (0, 0, 0) initStats).1.house_wins = 1) ∧
    ((process_spin_result (9, 9, 9) initStats).1.singles = 1) ∧
    ((process_spin_result (9, 9, 9) initStats).1.spin_again = 1) := by
  refine ⟨?_, ?_, ?_, ?_⟩ <;> rfl

set_option maxHeartbeats 1000000 in
/-- C2 (amended): `(0,0,0)` maps to HouseWin, `(9,9,9)` to SpinAgain,
and neither is ever counted as Triple or Double, but each is also
counted once as Single in the combo statistics; every other all-equal
triple counts as Triple, exactly-two-equal as Double, all-distinct as
Single. -/
theorem C2_classifier_amended (w : ℕ × ℕ × ℕ) (s : Stats) :
    ((process_spin_result w s).1.house_wins =
      s.house_wins + if classifySpec w = .houseWin then 1 else 0) ∧
    ((process_spin_result w s).1.spin_again =
      s.spin_again + if classifySpec w = .spinAgain then 1 else 0) ∧
    ((process_spin_result w s).1.triples =
      s.triples + if classifySpec w = .triple then 1 else 0) ∧
    ((process_spin_result w s).1.doubles =
      s.doubles + if classifySpec w = .double then 1 else 0) ∧
    ((process_spin_result w s).1.singles =
      s.singles +
        if classifySpec w = .single ∨ classifySpec w = .houseWin ∨
            classifySpec w = .spinAgain then 1 else 0) := by
  obtain ⟨a, b, c⟩ := w
  by_cases h0 : (a, b, c) = ((0 : ℕ), (0 : ℕ), (0 : ℕ))
  · rw [h0]; exact ⟨rfl, rfl, rfl, rfl, rfl⟩
  by_cases h9 : (a, b, c) = ((9 : ℕ), (9 : ℕ), (9 : ℕ))
  · rw [h9]; exact ⟨rfl, rfl, rfl, rfl, rfl⟩
  by_cases hab : a = b <;> by_cases hbc : b = c <;> by_cases hac : a = c <;>
    simp_all [process_spin_result, classifySpec, dedup_three_length,
      add_die_singles, add_die_doubles, add_die_triples, add_die_house_wins,
      add_die_spin_again] <;>
    (try (split_ifs <;>
      simp_all [add_die_singles, add_die_doubles, add_die_triples,
        add_die_house_wins, add_die_spin_again]))

/-! ### Theorems: settle message (C3) and spin trigger (C4) -/

/-- C3: the `wheel/state` message published when a spin settles is
exactly the colorClass of the landed triple's outcome category:
HouseWin → `"flash_red"`, SpinAgain → `"flash_green"`, every other
triple → `"flash_white"`. -/
theorem C3_settle_message_by_outcome (dt : ℚ) (g : GameState)
    (h : 1 ≤ g.animation_progress + dt / g.current_spin_duration) :
    (update_spin dt g).2 =
      [colorOf (classifySpec (landed_triple g.final_angle_base))] := by
  have hu : (1 : ℚ) ≤
      min 1 (g.animation_progress + dt / g.current_spin_duration) :=
    le_min le_rfl h
  unfold update_spin
  dsimp only
  split
  · by_cases h0 : landed_triple g.final_angle_base = (0, 0, 0)
    · simp [h0, classifySpec, colorOf]
    · by_cases h9 : landed_triple g.final_angle_base = (9, 9, 9)
      · simp [h0, h9, classifySpec, colorOf]
      · simp only [if_neg h0, if_neg h9, classifySpec, colorOf]
        split_ifs <;> rfl
  · exact absurd hu (by assumption)

/-- C3 witness: a concrete settling frame publishes the classified
color message. -/
theorem C3_settle_message_by_outcome_witness :
    (update_spin 1 spinningState).2 =
      [colorOf (classifySpec (landed_triple spinningState.final_angle_base))] :=
  C3_settle_message_by_outcome 1 spinningState (by norm_num [spinningState])

/-- C4: triggering a spin (SPACE key or a `wheel/spin` `"pressed"`
message) while the animation state is not idle is a no-op: the game
state is unchanged and no message is published. -/
theorem C4_start_while_not_idle_noop (g : GameState) (k spins : ℕ)
    (dur : ℚ) (h : g.animation_state ≠ .idle) :
    handle_space g k spins dur = (g, []) ∧
    on_mqtt_pressed g k spins dur = (g, []) := by
  constructor
  · unfold handle_space
    split
    · rw [if_neg (fun hc => h hc.1)]
    · rfl
  · unfold on_mqtt_pressed
    rw [if_neg (fun hc => h hc.1)]

/-- C4 witness: the no-op at a concrete spinning state. -/
theorem C4_start_while_not_idle_noop_witness :
    handle_space spinningState 3 5 31 = (spinningState, []) ∧
    on_mqtt_pressed spinningState 3 5 31 = (spinningState, []) :=
  C4_start_while_not_idle_noop spinningState 3 5 31 (by simp [spinningState])

/-! ### Theorems: history bound (C10) -/

/-- The settle-time history update is always at most 45 long. -/
lemma settle_history_update_length (txt : String) (h : List String) :
    (settle_history_update txt h).length ≤ 45 := by
  unfold settle_history_update
  dsimp only
  split
  · rw [List.length_take]; omega
  · omega

/-- Each history-touching operation leaves at most 45 entries. -/
lemma apply_hist_op_length (op : HistOp) (st : Stats × List String) :
    (apply_hist_op op st).2.length ≤ 45 := by
  cases op with
  | settle w => exact settle_history_update_length _ _
  | simulate ws =>
    show (run_silent_simulation ws st).2.length ≤ 45
    unfold run_silent_simulation
    dsimp only
    split
    · rw [List.length_take]; omega
    · omega

/-- C10: after any sequence of settled spins and silent simulations
starting from the empty history, the spin-results history holds at most
45 entries, and a settled spin's display string sits at index 0. -/
theorem C10_history_never_exceeds_45 :
    (∀ ops : List HistOp,
      ((run_hist_ops ops (initStats, [])).2).length ≤ 45) ∧
    (∀ (w : ℕ × ℕ × ℕ) (st : Stats × List String),
      (apply_hist_op (.settle w) st).2.head? =
        some (process_spin_result w st.1).2) := by
  constructor
  · have aux : ∀ (ops : List HistOp) (st : Stats × List String),
        st.2.length ≤ 45 → ((run_hist_ops ops st).2).length ≤ 45 := by
      intro ops
      induction ops with
      | nil => exact fun st h => h
      | cons op t ih =>
        intro st h
        simp only [run_hist_ops, List.foldl_cons] at ih ⊢
        exact ih (apply_hist_op op st) (apply_hist_op_length op st)
    exact fun ops => aux ops (initStats, []) (by simp)
  · intro w st
    show (settle_history_update (process_spin_result w st.1).2 st.2).head? = _
    unfold settle_history_update
    dsimp only
    split
    · rfl
    · rfl

/-! ### Theorems: indicator message handling (C5) -/

/-- C5: a `wheel/state` message equal to the indicator's current state
string is a complete no-op (nothing is reset), while a differing message
pre-empts the current animation: the state string is replaced, the
animation counter resets, and a flash command restarts the flash
sequence from its initial phase at the current time. -/
theorem C5_duplicate_state_message_noop (msg : String) (now : ℕ)
    (s : IndState) :
    (msg = s.current_state → mqtt_callback msg now s = s) ∧
    (msg ≠ s.current_state →
      (mqtt_callback msg now s).current_state = msg ∧
      (mqtt_callback msg now s).rainbow_step = 0 ∧
      (starts_with "flash_" msg = true →
        (mqtt_callback msg now s).flash_count_completed = 0 ∧
        (mqtt_callback msg now s).flash_is_fading_in = true ∧
        (mqtt_callback msg now s).flash_anim_start_time = now)) := by
  constructor
  · intro h
    simp [mqtt_callback, h]
  · intro h
    unfold mqtt_callback
    rw [if_pos h]
    dsimp only
    split_ifs <;> simp_all

/-- C5 witness: a duplicated `"flash_red"` leaves the mid-flash state
untouched, and a differing `"spinning"` replaces the state string. -/
theorem C5_duplicate_state_message_noop_witness :
    mqtt_callback "flash_red" 777 indFlashRed = indFlashRed ∧
    (mqtt_callback "spinning" 777 indFlashRed).current_state = "spinning" :=
  ⟨(C5_duplicate_state_message_noop "flash_red" 777 indFlashRed).1 rfl,
   ((C5_duplicate_state_message_noop "spinning" 777 indFlashRed).2
     (by decide)).1⟩

/-! ### Theorems: indicator flash progression (C6) -/

lemma scale_color_one (c : ℤ × ℤ × ℤ) : scale_color c 1 = c := by
  simp [scale_color, scale_channel]

lemma scale_color_zero (c : ℤ × ℤ × ℤ) : scale_color c 0 = (0, 0, 0) := by
  simp [scale_color, scale_channel]

/-- A state whose string starts with `"flash_"` is not `"spinning"`. -/
lemma flash_state_ne_spinning (cs : String)
    (h : starts_with "flash_" cs = true) : cs ≠ "spinning" := by
  intro hc
  rw [hc] at h
  exact absurd h (by decide)

/-- One dispatch tick on a flash state whose running half-fade has just
completed: fading in flips to fading out; fading out completes a cycle,
and the final cycle transitions to `post_flash_delay` with the LEDs
off. -/
lemma tick_flash_step (now : ℕ) (s : IndState)
    (hcs : starts_with "flash_" s.current_state = true)
    (helapsed : FLASH_FADE_DURATION_MS ≤ now - s.flash_anim_start_time) :
    tick_ind now s =
      if s.flash_is_fading_in then
        { s with pixels := fun _ => s.flash_color_target,
                 flash_anim_start_time := now,
                 flash_is_fading_in := false }
      else if s.flash_target_count ≤ s.flash_count_completed + 1 then
        { s with pixels := fun _ => (0, 0, 0),
                 flash_anim_start_time := now,
                 flash_is_fading_in := true,
                 flash_count_completed := s.flash_count_completed + 1,
                 current_state := "post_flash_delay",
                 post_flash_delay_start_time := now }
      else
        { s with pixels := fun _ => (0, 0, 0),
                 flash_anim_start_time := now,
                 flash_is_fading_in := true,
                 flash_count_completed := s.flash_count_completed + 1 } := by
  have hprog : min (((now - s.flash_anim_start_time : ℕ) : ℚ) /
      ((FLASH_FADE_DURATION_MS : ℕ) : ℚ)) 1 = 1 := by
    rw [min_eq_right]
    rw [le_div_iff (by norm_num [FLASH_FADE_DURATION_MS])]
    rw [one_mul]
    exact_mod_cast helapsed
  unfold tick_ind
  rw [if_neg (flash_state_ne_spinning _ hcs), if_pos hcs]
  unfold handle_fading_flash_leds
  dsimp only
  rw [hprog]
  rw [if_pos le_rfl]
  cases hf : s.flash_is_fading_in with
  | true => simp [scale_color_one]
  | false =>
    simp only [Bool.false_eq_true, if_false, sub_self, scale_color_zero]

/-- One dispatch tick in `post_flash_delay` after the delay has elapsed:
transition to `fade_to_green`. -/
lemma tick_post_flash_step (now : ℕ) (s : IndState)
    (hcs : s.current_state = "post_flash_delay")
    (h : POST_FLASH_DELAY_MS ≤ now - s.post_flash_delay_start_time) :
    tick_ind now s =
      { s with current_state := "fade_to_green",
               fade_to_green_start_time := now } := by
  unfold tick_ind
  rw [hcs]
  rw [if_neg (by decide), if_neg (by decide), if_pos rfl]
  unfold handle_post_flash_delay
  dsimp only
  rw [if_pos h]

/-- One dispatch tick in `fade_to_green` after the fade duration has
elapsed: the LEDs reach the idle color and the state returns to idle. -/
lemma tick_fade_green_step (now : ℕ) (s : IndState)
    (hcs : s.current_state = "fade_to_green")
    (h : FADE_TO_GREEN_DURATION_MS ≤ now - s.fade_to_green_start_time) :
    tick_ind now s =
      { s with pixels := fun _ => IDLE_COLOR,
               current_state := "idle" } := by
  have hprog : min (((now - s.fade_to_green_start_time : ℕ) : ℚ) /
      ((FADE_TO_GREEN_DURATION_MS : ℕ) : ℚ)) 1 = 1 := by
    rw [min_eq_right]
    rw [le_div_iff (by norm_num [FADE_TO_GREEN_DURATION_MS])]
    rw [one_mul]
    exact_mod_cast h
  unfold tick_ind
  rw [hcs]
  rw [if_neg (by decide), if_neg (by decide), if_neg (by decide), if_pos rfl]
  unfold handle_fade_to_green
  dsimp only
  rw [hprog]
  rw [if_pos le_rfl, scale_color_one]

lemma flash_times_succ (t0 m : ℕ) :
    flash_times t0 (m + 1) =
      flash_times t0 m ++ [t0 + FLASH_FADE_DURATION_MS * (m + 1)] := by
  simp [flash_times, List.range_succ]

lemma run_ticks_snoc (ts : List ℕ) (t : ℕ) (s : IndState) :
    run_ticks (ts ++ [t]) s = tick_ind t (run_ticks ts s) := by
  simp [run_ticks, List.foldl_append]

/-- Running the canonical flash clock for `j < 2n` half-fades keeps the
indicator mid-flash: the parity of `j` gives the fade direction, `j / 2`
cycles are complete, and the phase timer sits at the `j`-th boundary. -/
lemma flash_run_invariant (n t0 : ℕ) (s : IndState)
    (hcs : starts_with "flash_" s.current_state = true)
    (htarget : s.flash_target_count = n)
    (hfade : s.flash_is_fading_in = true)
    (hcompleted : s.flash_count_completed = 0)
    (hstart : s.flash_anim_start_time = t0) :
    ∀ j, j < 2 * n →
      (run_ticks (flash_times t0 j) s).current_state = s.current_state ∧
      (run_ticks (flash_times t0 j) s).flash_color_target =
        s.flash_color_target ∧
      (run_ticks (flash_times t0 j) s).flash_target_count = n ∧
      (run_ticks (flash_times t0 j) s).flash_is_fading_in = (j % 2 == 0) ∧
      (run_ticks (flash_times t0 j) s).flash_count_completed = j / 2 ∧
      (run_ticks (flash_times t0 j) s).flash_anim_start_time =
        t0 + FLASH_FADE_DURATION_MS * j ∧
      (run_ticks (flash_times t0 j) s).post_flash_delay_start_time =
        s.post_flash_delay_start_time ∧
      (run_ticks (flash_times t0 j) s).fade_to_green_start_time =
        s.fade_to_green_start_time := by
  intro j
  induction j with
  | zero =>
    intro _
    refine ⟨rfl, rfl, htarget, ?_, ?_, ?_, rfl, rfl⟩
    · simpa using hfade
    · simpa using hcompleted
    · simpa using hstart
  | succ j ih =>
    intro hj
    have hj' : j < 2 * n := by omega
    obtain ⟨i1, i2, i3, i4, i5, i6, i7, i8⟩ := ih hj'
    rw [flash_times_succ, run_ticks_snoc]
    rw [tick_flash_step (t0 + FLASH_FADE_DURATION_MS * (j + 1))
      (run_ticks (flash_times t0 j) s) (by rw [i1]; exact hcs)
      (by rw [i6]; simp only [FLASH_FADE_DURATION_MS]; omega)]
    by_cases hpar : j % 2 = 0
    · rw [if_pos (by rw [i4]; simp [hpar])]
      have h1 : (j + 1) % 2 = 1 := by omega
      refine ⟨i1, i2, i3, ?_, ?_, rfl, i7, i8⟩
      · show false = ((j + 1) % 2 == 0)
        rw [h1]
        rfl
      · show (run_ticks (flash_times t0 j) s).flash_count_completed =
          (j + 1) / 2
        rw [i5]
        omega
    · rw [if_neg (by rw [i4]; simp [hpar])]
      rw [if_neg (by rw [i3, i5]; omega)]
      have h0 : (j + 1) % 2 = 0 := by omega
      refine ⟨i1, i2, i3, ?_, ?_, rfl, i7, i8⟩
      · show true = ((j + 1) % 2 == 0)
        rw [h0]
        rfl
      · show (run_ticks (flash_times t0 j) s).flash_count_completed + 1 =
          (j + 1) / 2
        rw [i5]
        omega

set_option maxHeartbeats 800000 in
/-- C6 (amended, `flash_target_count ≥ 1`): for every flash color and
every positive flash target count, stepping the simulated clock through
the half-fade boundaries makes the indicator transition to
`post_flash_delay` with the LEDs off exactly when the
`flash_target_count`-th fade-out completes; one tick
`POST_FLASH_DELAY_MS` later it is in `fade_to_green`, and one tick
`FADE_TO_GREEN_DURATION_MS` after that it is idle with the LEDs at the
idle color. -/
theorem C6_flash_sequence_amended (n t0 : ℕ) (s : IndState)
    (hcs : starts_with "flash_" s.current_state = true)
    (hn : 1 ≤ n)
    (htarget : s.flash_target_count = n)
    (hfade : s.flash_is_fading_in = true)
    (hcompleted : s.flash_count_completed = 0)
    (hstart : s.flash_anim_start_time = t0) :
    (run_ticks (flash_times t0 (2 * n)) s).current_state =
      "post_flash_delay" ∧
    (run_ticks (flash_times t0 (2 * n)) s).pixels = (fun _ => (0, 0, 0)) ∧
    (run_ticks (flash_times t0 (2 * n)) s).flash_count_completed = n ∧
    (tick_ind (t0 + FLASH_FADE_DURATION_MS * (2 * n) + POST_FLASH_DELAY_MS)
        (run_ticks (flash_times t0 (2 * n)) s)).current_state =
      "fade_to_green" ∧
    (tick_ind
        (t0 + FLASH_FADE_DURATION_MS * (2 * n) + POST_FLASH_DELAY_MS +
          FADE_TO_GREEN_DURATION_MS)
        (tick_ind
          (t0 + FLASH_FADE_DURATION_MS * (2 * n) + POST_FLASH_DELAY_MS)
          (run_ticks (flash_times t0 (2 * n)) s))).current_state =
      "idle" ∧
    (tick_ind
        (t0 + FLASH_FADE_DURATION_MS * (2 * n) + POST_FLASH_DELAY_MS +
          FADE_TO_GREEN_DURATION_MS)
        (tick_ind
          (t0 + FLASH_FADE_DURATION_MS * (2 * n) + POST_FLASH_DELAY_MS)
          (run_ticks (flash_times t0 (2 * n)) s))).pixels =
      (fun _ => IDLE_COLOR) := by
  have h2n : 2 * n = (2 * n - 1) + 1 := by omega
  obtain ⟨i1, i2, i3, i4, i5, i6, i7, i8⟩ :=
    flash_run_invariant n t0 s hcs htarget hfade hcompleted hstart
      (2 * n - 1) (by omega)
  have hodd : (2 * n - 1) % 2 = 1 := by omega
  have hstep : run_ticks (flash_times t0 (2 * n)) s =
      { run_ticks (flash_times t0 (2 * n - 1)) s with
          pixels := fun _ => (0, 0, 0),
          flash_anim_start_time := t0 + FLASH_FADE_DURATION_MS * (2 * n),
          flash_is_fading_in := true,
          flash_count_completed :=
            (run_ticks (flash_times t0 (2 * n - 1)) s).flash_count_completed
              + 1,
          current_state := "post_flash_delay",
          post_flash_delay_start_time :=
            t0 + FLASH_FADE_DURATION_MS * (2 * n) } := by
    conv_lhs => rw [h2n, flash_times_succ, run_ticks_snoc]
    rw [tick_flash_step (t0 + FLASH_FADE_DURATION_MS * ((2 * n - 1) + 1))
      (run_ticks (flash_times t0 (2 * n - 1)) s) (by rw [i1]; exact hcs)
      (by rw [i6]; simp only [FLASH_FADE_DURATION_MS]; omega)]
    rw [if_neg (by rw [i4, hodd]; simp)]
    rw [if_pos (by rw [i3, i5]; omega)]
    rw [← h2n]
  have hs2 : tick_ind
      (t0 + FLASH_FADE_DURATION_MS * (2 * n) + POST_FLASH_DELAY_MS)
      (run_ticks (flash_times t0 (2 * n)) s) =
      { run_ticks (flash_times t0 (2 * n)) s with
          current_state := "fade_to_green",
          fade_to_green_start_time :=
            t0 + FLASH_FADE_DURATION_MS * (2 * n) + POST_FLASH_DELAY_MS } := by
    rw [tick_post_flash_step _ _ (by rw [hstep])
      (by rw [hstep]; dsimp only; omega)]
  have hs3 : tick_ind
      (t0 + FLASH_FADE_DURATION_MS * (2 * n) + POST_FLASH_DELAY_MS +
        FADE_TO_GREEN_DURATION_MS)
      (tick_ind (t0 + FLASH_FADE_DURATION_MS * (2 * n) + POST_FLASH_DELAY_MS)
        (run_ticks (flash_times t0 (2 * n)) s)) =
      { tick_ind
          (t0 + FLASH_FADE_DURATION_MS * (2 * n) + POST_FLASH_DELAY_MS)
          (run_ticks (flash_times t0 (2 * n)) s) with
          pixels := fun _ => IDLE_COLOR,
          current_state := "idle" } := by
    rw [tick_fade_green_step _ _ (by rw [hs2])
      (by rw [hs2]; dsimp only; omega)]
  refine ⟨by rw [hstep], by rw [hstep], ?_, by rw [hs2], by rw [hs3],
    by rw [hs3]⟩
  rw [hstep]
  show (run_ticks (flash_times t0 (2 * n - 1)) s).flash_count_completed + 1
    = n
  rw [i5]
  omega

/-- C6 witness: the configured red flash (count 13) runs through 26
half-fades to `post_flash_delay`, then to `fade_to_green`, then to
idle. -/
theorem C6_flash_sequence_amended_witness :
    (run_ticks (flash_times 0 (2 * 13)) indFlashStart).current_state =
      "post_flash_delay" ∧
    (run_ticks (flash_times 0 (2 * 13)) indFlashStart).pixels =
      (fun _ => (0, 0, 0)) ∧
    (run_ticks (flash_times 0 (2 * 13)) indFlashStart).flash_count_completed =
      13 ∧
    (tick_ind (0 + FLASH_FADE_DURATION_MS * (2 * 13) + POST_FLASH_DELAY_MS)
        (run_ticks (flash_times 0 (2 * 13)) indFlashStart)).current_state =
      "fade_to_green" ∧
    (tick_ind
        (0 + FLASH_FADE_DURATION_MS * (2 * 13) + POST_FLASH_DELAY_MS +
          FADE_TO_GREEN_DURATION_MS)
        (tick_ind
          (0 + FLASH_FADE_DURATION_MS * (2 * 13) + POST_FLASH_DELAY_MS)
          (run_ticks (flash_times 0 (2 * 13)) indFlashStart))).current_state =
      "idle" ∧
    (tick_ind
        (0 + FLASH_FADE_DURATION_MS * (2 * 13) + POST_FLASH_DELAY_MS +
          FADE_TO_GREEN_DURATION_MS)
        (tick_ind
          (0 + FLASH_FADE_DURATION_MS * (2 * 13) + POST_FLASH_DELAY_MS)
          (run_ticks (flash_times 0 (2 * 13)) indFlashStart))).pixels =
      (fun _ => IDLE_COLOR) :=
  C6_flash_sequence_amended 13 0 indFlashStart (by decide) (by norm_num)
    rfl rfl rfl rfl

/-- C6 counterexample for `flash_target_count = 0`: the state does not
become `post_flash_delay` after zero completed cycles (a mid-fade tick
leaves it flashing); it only transitions after one full cycle. -/
theorem C6_target_zero_counterexample :
    (tick_ind 100 indFlashZero).current_state = "flash_red" ∧
    (tick_ind (0 + FLASH_FADE_DURATION_MS * 2)
        (tick_ind (0 + FLASH_FADE_DURATION_MS * 1)
          indFlashZero)).current_state = "post_flash_delay" := by
  constructor
  · unfold tick_ind
    rw [if_neg (by decide), if_pos (by decide)]
    unfold handle_fading_flash_leds
    dsimp only
    rw [if_neg (by norm_num [indFlashZero, indFlashStart,
      FLASH_FADE_DURATION_MS, min_def])]
    rfl
  · rw [tick_flash_step (0 + FLASH_FADE_DURATION_MS * 1) indFlashZero
      (by decide)
      (by simp [indFlashZero, indFlashStart, FLASH_FADE_DURATION_MS])]
    rw [if_pos (show indFlashZero.flash_is_fading_in = true from rfl)]
    rw [tick_flash_step (0 + FLASH_FADE_DURATION_MS * 2) _
      (by decide)
      (by dsimp only; simp only [FLASH_FADE_DURATION_MS]
          simp [indFlashZero, indFlashStart])]
    rw [if_neg (by simp)]
    rw [if_pos (by simp [indFlashZero, indFlashStart])]

/-! ### Theorems: unknown state strings (C7) -/

/-- The breathing handler ignores and preserves the state string. -/
lemma handle_breathing_state_comm (now : ℕ) (s : IndState) (cs : String) :
    handle_breathing_idle_leds now { s with current_state := cs } =
      { handle_breathing_idle_leds now s with current_state := cs } := by
  unfold handle_breathing_idle_leds
  dsimp only
  split_ifs <;> rfl

lemma handle_breathing_current_state (now : ℕ) (s : IndState) :
    (handle_breathing_idle_leds now s).current_state = s.current_state := by
  unfold handle_breathing_idle_leds
  dsimp only
  split_ifs <;> rfl

/-- C7 counterexample: the unrecognized string `"flash_blue"` is not
handled as idle: the callback gives it the white-flash treatment, and
the next dispatch tick drives the LEDs to full white, whereas the idle
path would breathe green. -/
theorem C7_flash_blue_counterexample :
    ((tick_ind 300 (mqtt_callback "flash_blue" 0 indIdle)).pixels 0 =
      (255, 255, 255)) ∧
    ((tick_ind 300 { mqtt_callback "flash_blue" 0 indIdle with
        current_state := "idle" }).pixels 0 = (0, 115, 0)) := by
  have hcb : mqtt_callback "flash_blue" 0 indIdle =
      { indIdle with
          current_state := "flash_blue",
          rainbow_step := 0,
          flash_count_completed := 0,
          flash_is_fading_in := true,
          flash_anim_start_time := 0,
          flash_color_target := (255, 255, 255),
          flash_target_count := FLASH_COUNT_WHITE } := by
    unfold mqtt_callback
    rw [if_pos (by decide), if_pos (by decide), if_neg (by decide),
      if_neg (by decide)]
  constructor
  · rw [hcb]
    rw [tick_flash_step 300 _ (by decide)
      (by simp [indIdle, FLASH_FADE_DURATION_MS])]
    rfl
  · rw [hcb]
    unfold tick_ind
    rw [if_neg (by decide), if_neg (by decide), if_neg (by decide),
      if_neg (by decide)]
    rw [if_pos (show IDLE_BREATHING_EFFECT = true from rfl)]
    unfold handle_breathing_idle_leds
    dsimp only
    rw [if_pos (by norm_num [indIdle, IDLE_BREATHE_SPEED_MS])]
    dsimp only
    norm_num [indIdle, IDLE_BREATHE_MIN_BRIGHTNESS, IDLE_BREATHE_MAX_BRIGHTNESS]

/-- C7 (amended): an inbound state string that is none of the recognized
states and does not begin with `"flash_"` leaves the indicator on the
safe idle baseline: a dispatch tick behaves exactly as it would in the
idle state (only the stored state string differs); an unrecognized
string that does begin with `"flash_"` is instead treated as a white
flash with the white flash count. -/
theorem C7_unknown_state_amended (now : ℕ) (s : IndState)
    (h1 : s.current_state ≠ "spinning")
    (h2 : starts_with "flash_" s.current_state = false)
    (h3 : s.current_state ≠ "post_flash_delay")
    (h4 : s.current_state ≠ "fade_to_green") :
    tick_ind now s =
      { tick_ind now { s with current_state := "idle" } with
          current_state := s.current_state } ∧
    (∀ (msg : String) (now2 : ℕ) (s2 : IndState),
      msg ≠ s2.current_state → starts_with "flash_" msg = true →
      msg ≠ "flash_red" → msg ≠ "flash_green" →
      (mqtt_callback msg now2 s2).flash_color_target = (255, 255, 255) ∧
      (mqtt_callback msg now2 s2).flash_target_count = FLASH_COUNT_WHITE) := by
  constructor
  · unfold tick_ind
    rw [if_neg h1, if_neg (by simp [h2]), if_neg h3, if_neg h4,
      if_pos (show IDLE_BREATHING_EFFECT = true from rfl)]
    rw [if_neg (show ¬(({ s with current_state := "idle" } :
        IndState).current_state = "spinning") by simp)]
    rw [if_neg (show ¬(starts_with "flash_" ({ s with
        current_state := "idle" } : IndState).current_state = true) by
      simp [starts_with])]
    rw [if_neg (show ¬(({ s with current_state := "idle" } :
        IndState).current_state = "post_flash_delay") by simp)]
    rw [if_neg (show ¬(({ s with current_state := "idle" } :
        IndState).current_state = "fade_to_green") by simp)]
    rw [if_pos (show IDLE_BREATHING_EFFECT = true from rfl)]
    rw [handle_breathing_state_comm now s "idle"]
    rw [← handle_breathing_current_state now s]
  · intro msg now2 s2 hne hflash hred hgreen
    unfold mqtt_callback
    rw [if_pos hne, if_pos hflash, if_neg hred, if_neg hgreen]
    exact ⟨rfl, rfl⟩

/-- C7 witness: the unrecognized string `"bogus"` ticks exactly as idle,
and the unrecognized flash command `"flash_blue"` is set up as a white
flash. -/
theorem C7_unknown_state_amended_witness :
    (tick_ind 50 indBogus =
      { tick_ind 50 { indBogus with current_state := "idle" } with
          current_state := indBogus.current_state }) ∧
    (mqtt_callback "flash_blue" 3 indIdle).flash_color_target =
      (255, 255, 255) :=
  ⟨(C7_unknown_state_amended 50 indBogus (by decide) (by decide)
      (by decide) (by decide)).1,
   ((C7_unknown_state_amended 50 indBogus (by decide) (by decide)
      (by decide) (by decide)).2 "flash_blue" 3 indIdle (by decide)
      (by decide) (by decide) (by decide)).1⟩

end ChuckALuck
